import Mathlib

/-!
Shallow embedding of the Fetch-Browser MCP server.

The development models the two url-fetcher variants of the repository
(src/url-fetcher.ts, and the unnamed module that exports the internal
`fetchUrl` / `fetchUrlWithParams` helpers), together with the deep
google-search tool that fans out over the extracted result URLs.

External platform capabilities (the DOM parser used on Google result
pages, the platform JSON parser, and the network itself) are passed in
as explicit function arguments ("oracles"); everything the repository's
own code does is translated directly into the definitions below.
Observable side effects of a fetch path (network requests, backoff
sleeps, filesystem writes) are recorded in an explicit effect trace.
-/

/-- Requested response type of a tool call: the `responseType` enum
`'text' | 'json' | 'html' | 'markdown'` of the zod schemas. -/
inductive RType where
  | text
  | json
  | html
  | markdown
deriving DecidableEq, Repr

/-- Case-sensitive literal match at the head of the input, returning
the remainder on success. -/
def matchCS (pat cs : List Char) : Option (List Char) :=
  match pat, cs with
  | [], rest => some rest
  | _ :: _, [] => none
  | p :: ps, c :: rest => if p = c then matchCS ps rest else none

/-- First occurrence of a literal pattern in the input: the characters
before the match and the remainder after it. -/
def findCS (pat : List Char) : List Char → Option (List Char × List Char)
  | [] => (matchCS pat []).map fun rest => ([], rest)
  | c :: cs =>
    match matchCS pat (c :: cs) with
    | some rest => some ([], rest)
    | none => (findCS pat cs).map fun p => (c :: p.1, p.2)

/-- Model of the JavaScript `String.prototype.includes`: true when the
pattern occurs as a substring (the empty pattern always occurs). -/
def jsIncludes (s pat : String) : Bool :=
  (findCS pat.toList s.toList).isSome

/-- Model of the JavaScript `String.prototype.trim`: strip leading and
trailing whitespace. -/
def jsTrim (s : String) : String :=
  String.mk (((s.toList.dropWhile Char.isWhitespace).reverse.dropWhile Char.isWhitespace).reverse)

/-- Model of the JavaScript `String.prototype.startsWith`: the pattern
is a prefix of the string. -/
def jsStartsWith (s pat : String) : Bool :=
  (matchCS pat.toList s.toList).isSome

/-- Numeric value of a hexadecimal digit, for the `0x` branch of the
platform `parseInt`. -/
def hexDigitVal (c : Char) : Nat :=
  if c.isDigit then c.toNat - '0'.toNat
  else if 'a' ≤ c ∧ c ≤ 'f' then c.toNat - 'a'.toNat + 10
  else if 'A' ≤ c ∧ c ≤ 'F' then c.toNat - 'A'.toNat + 10
  else 0

/-- Character class of the hexadecimal digits accepted by `parseInt`
after a `0x` marker. -/
def isHexDigit (c : Char) : Bool :=
  c.isDigit ∨ ('a' ≤ c ∧ c ≤ 'f') ∨ ('A' ≤ c ∧ c ≤ 'F')

/-- Modelled from the platform: JavaScript `parseInt(s)` with no radix
argument. Leading whitespace is skipped, an optional sign is read, a
`0x`/`0X` marker switches to hexadecimal, and the longest prefix of
digits is converted; the result is `none` when no digit is found
(`parseInt` returns `NaN` there). -/
def parseIntJS (s : String) : Option Int :=
  let cs := s.toList.dropWhile (fun c => c.isWhitespace)
  let sgn : Int := match cs with
    | '-' :: _ => -1
    | _ => 1
  let cs := match cs with
    | '-' :: rest => rest
    | '+' :: rest => rest
    | _ => cs
  match cs with
  | '0' :: x :: rest =>
    if x = 'x' ∨ x = 'X' then
      let ds := rest.takeWhile isHexDigit
      if ds.isEmpty then none
      else some (sgn * (ds.foldl (fun acc c => acc * 16 + hexDigitVal c) 0 : Nat))
    else
      let ds := (('0' :: x :: rest).takeWhile Char.isDigit)
      if ds.isEmpty then none
      else some (sgn * (ds.foldl (fun acc c => acc * 10 + (c.toNat - '0'.toNat)) 0 : Nat))
  | _ =>
    let ds := cs.takeWhile Char.isDigit
    if ds.isEmpty then none
    else some (sgn * (ds.foldl (fun acc c => acc * 10 + (c.toNat - '0'.toNat)) 0 : Nat))

/-- Modelled from the platform: the JSON value space used by
`JSON.parse` / `JSON.stringify`. Numbers are restricted to integers,
which suffices for every property proved in this development. -/
inductive Json where
  | null
  | bool (b : Bool)
  | num (n : Int)
  | str (s : String)
  | arr (items : List Json)
  | obj (fields : List (String × Json))
deriving Repr, BEq

/-- String escaping performed by `JSON.stringify` on string values. -/
def escapeJsonChar (c : Char) : String :=
  if c = '"' then "\\\""
  else if c = '\\' then "\\\\"
  else if c = '\n' then "\\n"
  else if c = '\r' then "\\r"
  else if c = '\t' then "\\t"
  else if c.toNat < 32 then
    "\\u00" ++ String.singleton (Nat.digitChar (c.toNat / 16)) ++
      String.singleton (Nat.digitChar (c.toNat % 16))
  else String.singleton c

/-- Quoted, escaped rendering of a string value. -/
def quoteJson (s : String) : String :=
  "\"" ++ String.join (s.toList.map escapeJsonChar) ++ "\""

/-- Two spaces of indentation per nesting level, as produced by
`JSON.stringify(v, null, 2)`. -/
def jsonIndent (level : Nat) : String :=
  String.join (List.replicate level "  ")

mutual

/-- Modelled from the platform: `JSON.stringify(v, null, 2)` at a given
nesting level. -/
def renderJson (level : Nat) : Json → String
  | .null => "null"
  | .bool true => "true"
  | .bool false => "false"
  | .num n => toString n
  | .str s => quoteJson s
  | .arr [] => "[]"
  | .arr (x :: xs) =>
    "[\n" ++ String.intercalate ",\n" (renderJsonList (level + 1) (x :: xs)) ++
      "\n" ++ jsonIndent level ++ "]"
  | .obj [] => "\x7b\x7d"
  | .obj (f :: fs) =>
    "\x7b\n" ++ String.intercalate ",\n" (renderJsonFields (level + 1) (f :: fs)) ++
      "\n" ++ jsonIndent level ++ "\x7d"

/-- Array items, each on its own indented line. -/
def renderJsonList (level : Nat) : List Json → List String
  | [] => []
  | x :: xs => (jsonIndent level ++ renderJson level x) :: renderJsonList level xs

/-- Object fields, each on its own indented line. -/
def renderJsonFields (level : Nat) : List (String × Json) → List String
  | [] => []
  | (k, v) :: fs =>
    (jsonIndent level ++ quoteJson k ++ ": " ++ renderJson level v) ::
      renderJsonFields level fs

end

/-- Modelled from the platform: `JSON.stringify(v, null, 2)`. -/
def stringifyPretty (v : Json) : String :=
  renderJson 0 v

/-- Constant from url-fetcher.ts: maximum number of attempts of the
fetch_url retry loop. -/
def MAX_RETRIES : Nat := 3

/-- Constant from url-fetcher.ts: base backoff delay in milliseconds. -/
def INITIAL_RETRY_DELAY : Nat := 1000

/-- Constant from url-fetcher.ts: maximum allowed response body size,
10 MiB. -/
def MAX_RESPONSE_SIZE : Nat := 10 * 1024 * 1024

/-- Constant from url-fetcher.ts: the canonical Google search
endpoint. -/
def GOOGLE_SEARCH_URL : String := "https://www.google.com/search"

/-- Constant from url-fetcher.ts: cap on extracted search results. -/
def MAX_SEARCH_RESULTS : Nat := 5

/-- Helper function for exponential backoff, from url-fetcher.ts:
`INITIAL_RETRY_DELAY * Math.pow(2, attempt)`. -/
def getRetryDelay (attempt : Nat) : Nat :=
  INITIAL_RETRY_DELAY * 2 ^ attempt

/-- Observable side effects of one fetch path: an outbound network
request, a backoff sleep of a given duration in milliseconds, or a
filesystem write to a named file. -/
inductive Effect where
  | request : Effect
  | sleep (ms : Nat) : Effect
  | writeFile (name : String) : Effect
deriving DecidableEq, Repr

/-- Backoff sleep durations occurring in a trace, in order. -/
def sleepsOf (trace : List Effect) : List Nat :=
  trace.filterMap fun e =>
    match e with
    | .sleep ms => some ms
    | _ => none

/-- Response headers read by the code: the values of the
`content-type` and `content-length` headers (`none` when the header is
absent, in which case `headers.get` returns `null`). -/
structure Headers where
  contentType : Option String
  contentLength : Option String
deriving DecidableEq, Repr

/-- Model of a platform `Response`: status, reason phrase, headers and
the body text that `response.text()` would produce. -/
structure HttpResponse where
  status : Nat
  statusText : String
  headers : Headers
  body : String
deriving DecidableEq, Repr

/-- Model of `response.ok`: status in the 2xx range. -/
def HttpResponse.isOk (r : HttpResponse) : Bool :=
  decide (200 ≤ r.status ∧ r.status < 300)

/-- Model of a platform `URL` object, carrying the fields the code
reads: `origin`, `pathname` and `search`. -/
structure URLm where
  origin : String
  pathname : String
  search : String
deriving DecidableEq, Repr

/-- Model of `url.toString()` on the URL object. -/
def URLm.toStr (u : URLm) : String :=
  u.origin ++ u.pathname ++ u.search

/-- Modelled from the platform URL parser: `new URL(s).origin +
new URL(s).pathname` for the common absolute-URL shapes used in this
development (scheme://host/path, query and fragment stripped, missing
path normalized to "/"). -/
def urlOriginPath (s : String) : String :=
  match findCS "://".toList s.toList with
  | none => s
  | some (scheme, rest) =>
    let stop := fun (c : Char) => c == '/' || c == '?' || c == '#'
    let host := rest.takeWhile fun c => !stop c
    let after := rest.dropWhile fun c => !stop c
    let path :=
      match after with
      | '/' :: _ => after.takeWhile fun c => !(c == '?' || c == '#')
      | _ => ['/']
    String.mk (scheme ++ "://".toList ++ host ++ path)

/-- Size check shared by both processResponse variants:
`parseInt(response.headers.get('content-length') || '0') >
MAX_RESPONSE_SIZE`. A `NaN` from `parseInt` (modelled as `none`)
compares false. -/
def sizeExceeded (h : Headers) : Bool :=
  match parseIntJS (h.contentLength.getD "0") with
  | some n => decide (n > (MAX_RESPONSE_SIZE : Int))
  | none => false

/-- JavaScript truthiness of a `string | null | undefined` value:
`null`, `undefined` and the empty string are falsy. -/
def truthy : Option String → Bool
  | none => false
  | some s => decide (s ≠ "")

/-- Case-insensitive character comparison, for the `i` flag of the
htmlToMarkdown regexes. -/
def lcEq (a b : Char) : Bool :=
  a.toLower == b.toLower

/-- Match a literal pattern case-insensitively at the head of the
input, returning the remainder on success. -/
def matchCI (pat : List Char) (cs : List Char) : Option (List Char) :=
  match pat, cs with
  | [], rest => some rest
  | _ :: _, [] => none
  | p :: ps, c :: rest => if lcEq p c then matchCI ps rest else none

/-- Consume `[^>]*>` (attribute characters up to and including the
closing angle bracket), returning the remainder; `none` when no closing
bracket exists. -/
def afterAttrs : List Char → Option (List Char)
  | [] => none
  | '>' :: rest => some rest
  | _ :: rest => afterAttrs rest

/-- Lazy scan of a regex `(.*?)` group: collect characters (none of
which may be a newline, since the dot does not match newlines) until
the stop pattern matches, returning the collected content and the
remainder after the stop pattern. -/
def scanUntil (stop : List Char → Option (List Char)) : List Char → Option (List Char × List Char)
  | [] =>
    match stop [] with
    | some rest => some ([], rest)
    | none => none
  | c :: cs =>
    match stop (c :: cs) with
    | some rest => some ([], rest)
    | none =>
      if c = '\n' then none
      else
        match scanUntil stop cs with
        | some (content, rest) => some (c :: content, rest)
        | none => none

/-- List-level trim via the string trim. -/
def trimChars (cs : List Char) : List Char :=
  (jsTrim (String.mk cs)).toList

/-- Opening match of the heading pass regex `<h[1-6][^>]*>`. -/
def headingOpen : List Char → Option (List Char)
  | '<' :: h :: d :: rest =>
    if lcEq 'h' h ∧ '1' ≤ d ∧ d ≤ '6' then afterAttrs (d :: rest) else none
  | _ => none

/-- Closing match of the heading pass regex `<\/h[1-6]>`. -/
def headingClose : List Char → Option (List Char)
  | '<' :: '/' :: h :: d :: '>' :: rest =>
    if lcEq 'h' h ∧ '1' ≤ d ∧ d ≤ '6' then some rest else none
  | _ => none

/-- Heading pass of htmlToMarkdown: global replacement of
`<h[1-6][^>]*>(.*?)<\/h[1-6]>` by a `#`-prefixed line with trimmed
content. -/
def headingPass : Nat → List Char → List Char
  | 0, cs => cs
  | _ + 1, [] => []
  | fuel + 1, c :: cs =>
    match headingOpen (c :: cs) with
    | some afterOpen =>
      match scanUntil headingClose afterOpen with
      | some (content, rest) =>
        ('\n' :: '#' :: ' ' :: trimChars content) ++ '\n' :: headingPass fuel rest
      | none => c :: headingPass fuel cs
    | none => c :: headingPass fuel cs

/-- Paired-tag pass shared by the bold and italic substitutions
(`<(strong|b)>(.*?)<\/\1>` and `<(em|i)>(.*?)<\/\1>`): the opening tag
is one of two exact tag names (no attributes), the closing tag is the
backreferenced same name, and the content is wrapped by a marker. -/
def pairPass (tagA tagB : List Char) (marker : List Char) : Nat → List Char → List Char
  | 0, cs => cs
  | _ + 1, [] => []
  | fuel + 1, c :: cs =>
    let tryTag := fun (tag : List Char) =>
      matchCI ('<' :: tag ++ ['>']) (c :: cs)
    let opened : Option (List Char × List Char) :=
      match tryTag tagA with
      | some rest => some (tagA, rest)
      | none =>
        match tryTag tagB with
        | some rest => some (tagB, rest)
        | none => none
    match opened with
    | some (tag, afterOpen) =>
      match scanUntil (matchCI ('<' :: '/' :: tag ++ ['>'])) afterOpen with
      | some (content, rest) =>
        marker ++ content ++ marker ++ pairPass tagA tagB marker fuel rest
      | none => c :: pairPass tagA tagB marker fuel cs
    | none => c :: pairPass tagA tagB marker fuel cs

/-- Anchor pass of htmlToMarkdown: global replacement of
`<a[^>]*href="([^"]*)"[^>]*>(.*?)<\/a>` by `[text](href)`. The href
attribute is located inside the tag body (the characters before the
first closing angle bracket). -/
def linkPass : Nat → List Char → List Char
  | 0, cs => cs
  | _ + 1, [] => []
  | fuel + 1, c :: cs =>
    let step : Option (List Char × List Char) :=
      match matchCI ['<', 'a'] (c :: cs) with
      | none => none
      | some afterA =>
        let tagBody := afterA.takeWhile (· ≠ '>')
        match afterAttrs afterA with
        | none => none
        | some afterOpen =>
          let rec findHref : List Char → Option (List Char)
            | [] => none
            | t :: ts =>
              match matchCI "href=\"".toList (t :: ts) with
              | some rest => some rest
              | none => findHref ts
          match findHref tagBody with
          | none => none
          | some afterHref =>
            if (afterHref.dropWhile (· ≠ '"')).isEmpty then none
            else
              let href := afterHref.takeWhile (· ≠ '"')
              match scanUntil (matchCI "</a>".toList) afterOpen with
              | some (content, rest) =>
                some ('[' :: content ++ ']' :: '(' :: href ++ [')'], rest)
              | none => none
    match step with
    | some (out, rest) => out ++ linkPass fuel rest
    | none => c :: linkPass fuel cs

/-- Inner list-item replacement `content.replace(/<li[^>]*>(.*?)<\/li>/gi, ...)`
applied to the body of a matched list: each item becomes a
bullet-prefixed (`- ` for `ul`, `1. ` for `ol`) line. -/
def liPass (bullet : List Char) : Nat → List Char → List Char
  | 0, cs => cs
  | _ + 1, [] => []
  | fuel + 1, c :: cs =>
    let opened : Option (List Char) :=
      match matchCI "<li".toList (c :: cs) with
      | some afterLi => afterAttrs afterLi
      | none => none
    match opened with
    | some afterOpen =>
      match scanUntil (matchCI "</li>".toList) afterOpen with
      | some (content, rest) =>
        bullet ++ content ++ '\n' :: liPass bullet fuel rest
      | none => c :: liPass bullet fuel cs
    | none => c :: liPass bullet fuel cs

/-- List pass of htmlToMarkdown: global replacement of
`<(ul|ol)[^>]*>(.*?)<\/\1>` where the replacement runs the list-item
substitution over the matched content (`- ` items for `ul`, `1. ` for
`ol`). -/
def listPass : Nat → List Char → List Char
  | 0, cs => cs
  | _ + 1, [] => []
  | fuel + 1, c :: cs =>
    let tryOpen := fun (tag : List Char) =>
      match matchCI ('<' :: tag) (c :: cs) with
      | some afterTag => afterAttrs afterTag
      | none => none
    let opened : Option (Bool × List Char) :=
      match tryOpen "ul".toList with
      | some rest => some (true, rest)
      | none =>
        match tryOpen "ol".toList with
        | some rest => some (false, rest)
        | none => none
    match opened with
    | some (isUl, afterOpen) =>
      let closeTag := if isUl then "</ul>".toList else "</ol>".toList
      match scanUntil (matchCI closeTag) afterOpen with
      | some (content, rest) =>
        let bullet := if isUl then "- ".toList else "1. ".toList
        liPass bullet (content.length + 1) content ++ listPass fuel rest
      | none => c :: listPass fuel cs
    | none => c :: listPass fuel cs

/-- Paragraph pass of htmlToMarkdown: global replacement of
`<p[^>]*>(.*?)<\/p>` by the content delimited with newlines. -/
def paraPass : Nat → List Char → List Char
  | 0, cs => cs
  | _ + 1, [] => []
  | fuel + 1, c :: cs =>
    let opened : Option (List Char) :=
      match matchCI "<p".toList (c :: cs) with
      | some afterP => afterAttrs afterP
      | none => none
    match opened with
    | some afterOpen =>
      match scanUntil (matchCI "</p>".toList) afterOpen with
      | some (content, rest) =>
        '\n' :: content ++ '\n' :: paraPass fuel rest
      | none => c :: paraPass fuel cs
    | none => c :: paraPass fuel cs

/-- Tag-stripping pass of htmlToMarkdown: global removal of `<[^>]*>`
(an unclosed angle bracket is kept verbatim). -/
def stripTagsPass : Nat → List Char → List Char
  | 0, cs => cs
  | _ + 1, [] => []
  | fuel + 1, c :: cs =>
    if c = '<' then
      match afterAttrs cs with
      | some rest => stripTagsPass fuel rest
      | none => c :: stripTagsPass fuel cs
    else c :: stripTagsPass fuel cs

/-- Blank-line collapsing pass of htmlToMarkdown: global replacement of
`\n\s*\n` (greedy inner whitespace, backtracking to the last newline of
the run) by a single blank line. -/
def collapsePass : Nat → List Char → List Char
  | 0, cs => cs
  | _ + 1, [] => []
  | fuel + 1, c :: cs =>
    if c = '\n' then
      let run := cs.takeWhile Char.isWhitespace
      match run.reverse.findIdx? (· == '\n') with
      | some j => '\n' :: '\n' :: collapsePass fuel (cs.drop (run.length - j))
      | none => c :: collapsePass fuel cs
    else c :: collapsePass fuel cs

/-- Run one htmlToMarkdown pass over a string with enough fuel to
consume the whole input. -/
def runPass (pass : Nat → List Char → List Char) (s : String) : String :=
  String.mk (pass (s.toList.length + 1) s.toList)

/-- Convert HTML to Markdown, from url-fetcher.ts: the chain of
sequential textual substitutions (headings, bold, italic, anchors,
lists, paragraphs, tag stripping, blank-line collapsing, final trim).
The JavaScript regex semantics (case-insensitive global matching, lazy
dots that do not cross newlines, backreferenced closing tags) are
modelled by the scanning passes above; for the anchor pass the first
`href="` occurrence inside the tag is used. -/
def htmlToMarkdown (html : String) : String :=
  let s1 := runPass headingPass html
  let s2 := runPass (pairPass "strong".toList "b".toList "**".toList) s1
  let s3 := runPass (pairPass "em".toList "i".toList "*".toList) s2
  let s4 := runPass linkPass s3
  let s5 := runPass listPass s4
  let s6 := runPass paraPass s5
  let s7 := runPass stripTagsPass s6
  let s8 := runPass collapsePass s7
  jsTrim s8

/-- MIME type attached to the returned content, from the handlers'
`mimeType` conditional expression. -/
def mimeFor (rt : RType) : String :=
  match rt with
  | .json => "application/json"
  | .markdown => "text/markdown"
  | .html => "text/html"
  | .text => "text/plain"

namespace UrlFetcher

/-- Abstract view of one `div.g` (or `.tF2Cxc`) candidate element of a
parsed Google results page, as queried by src/url-fetcher.ts: the outer
option is element presence (`querySelector` returning `null`), the
inner option is a `null` `textContent` or `getAttribute` result. -/
structure GDiv where
  h3Text : Option (Option String)
  linkHref : Option (Option String)
  descText : Option (Option String)
deriving DecidableEq, Repr

/-- Abstract view of a document parsed by the external DOM library:
the element lists returned by `querySelectorAll('div.g')` and
`querySelectorAll('.tF2Cxc')`, in document order. -/
structure GDoc where
  gDivs : List GDiv
  tF2Cxc : List GDiv
deriving Repr

/-- Structured search result produced by the src/url-fetcher.ts
extractor. -/
structure SearchResult where
  title : String
  url : String
  description : String
deriving DecidableEq, Repr

/-- Value of `titleEl ? titleEl.textContent?.trim() : ''` (`none` means
the JavaScript `undefined`). -/
def titleOf (d : GDiv) : Option String :=
  match d.h3Text with
  | none => some ""
  | some t => t.map jsTrim

/-- Value of `linkEl ? linkEl.getAttribute('href') : ''` (`none` means
the JavaScript `null`). -/
def urlOf (d : GDiv) : Option String :=
  match d.linkHref with
  | none => some ""
  | some h => h

/-- Value of `descEl ? descEl.textContent?.trim() : ''`. -/
def descOf (d : GDiv) : Option String :=
  match d.descText with
  | none => some ""
  | some t => t.map jsTrim

/-- Loop body of the src/url-fetcher.ts extractor: the candidate is
pushed only when `title && url` is truthy, with the defaulted fields of
the pushed object. -/
def acceptDiv (d : GDiv) : Option SearchResult :=
  let title := titleOf d
  let url := urlOf d
  let description := descOf d
  if truthy title && truthy url then
    some { title := title.getD "", url := url.getD "",
           description := if truthy description then description.getD "" else "No description" }
  else none

/-- Result list built by the src/url-fetcher.ts extractor: the first
`min(MAX_SEARCH_RESULTS, length)` `div.g` candidates in document order,
falling back to the `.tF2Cxc` alternative selector when no result was
found. -/
def collectResults (doc : GDoc) : List SearchResult :=
  let results := (doc.gDivs.take MAX_SEARCH_RESULTS).filterMap acceptDiv
  if results.isEmpty then (doc.tF2Cxc.take MAX_SEARCH_RESULTS).filterMap acceptDiv
  else results

/-- JSON object for one result, with the key order of the pushed object
literal. -/
def SearchResult.toJson (r : SearchResult) : Json :=
  .obj [("title", .str r.title), ("url", .str r.url), ("description", .str r.description)]

/-- Format switch at the end of the src/url-fetcher.ts extractor,
reproducing its template literals. -/
def renderResults (rt : RType) (rs : List SearchResult) : String :=
  match rt with
  | .json => stringifyPretty (Json.arr (rs.map SearchResult.toJson))
  | .html =>
    String.intercalate "\n" (rs.map fun r =>
      "\n          <div class=\"search-result\">\n            <h3><a href=\"" ++ r.url ++
        "\">" ++ r.title ++ "</a></h3>\n            <div class=\"url\">" ++ r.url ++
        "</div>\n            <div class=\"description\">" ++ r.description ++
        "</div>\n          </div>\n        ")
  | .markdown =>
    String.intercalate "\n" (rs.enum.map fun p =>
      "\n" ++ toString (p.1 + 1) ++ ". **" ++ p.2.title ++ "**\n   - URL: " ++ p.2.url ++
        "\n   - Description: " ++ p.2.description ++ "\n")
  | .text =>
    String.intercalate "\n" (rs.enum.map fun p =>
      "\n" ++ toString (p.1 + 1) ++ ". " ++ p.2.title ++ "\n   URL: " ++ p.2.url ++
        "\n   Description: " ++ p.2.description ++ "\n")

/-- Extract search results from Google HTML, from src/url-fetcher.ts.
The DOM parser (JSDOM) is external and passed as `parseDom`; in this
model parsing is total, so the function's try/catch wrapper never
fires. -/
def extractGoogleResults (parseDom : String → GDoc) (html : String) (rt : RType) : String :=
  renderResults rt (collectResults (parseDom html))

end UrlFetcher

/-- Format switch of processResponse (identical in both url-fetcher
variants) for a non-Google URL: content-type gate for `json` and
`html`, graceful degradation for `markdown`, passthrough for `text`.
The platform `JSON.parse` is passed as `jsonParse`; `none` models a
thrown SyntaxError (whose platform-defined message is modelled by a
fixed string). -/
def formatDispatch (jsonParse : String → Option Json) (rt : RType) (contentType text : String) : Except String String :=
  match rt with
  | .json =>
    if ¬ jsIncludes contentType "application/json" then .error "Response is not JSON"
    else
      match jsonParse text with
      | some v => .ok (stringifyPretty v)
      | none => .error "Unexpected token in JSON"
  | .html =>
    if ¬ jsIncludes contentType "text/html" then .error "Response is not HTML"
    else .ok text
  | .markdown =>
    if jsIncludes contentType "text/html" then .ok (htmlToMarkdown text)
    else if jsIncludes contentType "text/markdown" then .ok text
    else .ok ("```\n" ++ text ++ "\n```")
  | .text => .ok text

namespace UrlFetcher

/-- Process response based on type, from src/url-fetcher.ts. The first
component is the produced string or the thrown error message; the
second component records whether control reached `response.text()`
(the body is read only after the content-length check passes). -/
def processResponse (parseDom : String → GDoc) (jsonParse : String → Option Json)
    (r : HttpResponse) (rt : RType) (url : URLm) : Except String String × Bool :=
  let contentType := r.headers.contentType.getD ""
  if sizeExceeded r.headers then (.error "Response too large", false)
  else
    let text := r.body
    if url.origin ++ url.pathname = GOOGLE_SEARCH_URL then
      (.ok (extractGoogleResults parseDom text rt), true)
    else (formatDispatch jsonParse rt contentType text, true)

/-- Outcome of one fetch attempt as seen by the handler's try block:
the request was aborted by the timeout, the fetch layer threw, or a
response arrived. -/
inductive AttemptRes where
  | aborted : AttemptRes
  | thrown (msg : String) : AttemptRes
  | resp (r : HttpResponse) : AttemptRes
deriving Repr

/-- Metadata object of a successful fetch_url envelope. -/
structure FetchMeta where
  url : String
  contentType : Option String
  contentLength : Option String
  isGoogleSearch : Bool
  responseType : RType
deriving DecidableEq, Repr

/-- Terminal envelope of one fetch_url call: a success payload with
mime type and metadata, or an error envelope (`isError: true`) with its
message. -/
inductive ToolResult where
  | success (text : String) (mimeType : String) (meta : FetchMeta) : ToolResult
  | failure (text : String) : ToolResult
deriving DecidableEq, Repr

/-- Retry loop of the fetch_url handler, from src/url-fetcher.ts.
Each attempt's network outcome is supplied by `oracle`; the fuel
argument mirrors the loop bound (`runTool` starts it at
`MAX_RETRIES`). The effect trace records the request issued by each
attempt and every backoff sleep. Thrown errors from `processResponse`
are caught by the same catch block as fetch-layer failures and retried
with backoff unless this is the last attempt. -/
def loop (parseDom : String → GDoc) (jsonParse : String → Option Json)
    (oracle : Nat → AttemptRes) (url : URLm) (rt : RType) (timeoutMs : Nat) :
    Nat → Nat → ToolResult × List Effect
  | 0, _ => (.failure "Failed to fetch URL after all retry attempts", [])
  | fuel + 1, attempt =>
    match oracle attempt with
    | .aborted =>
      (.failure ("Request timed out after " ++ toString timeoutMs ++ "ms"), [.request])
    | .thrown msg =>
      if attempt = MAX_RETRIES - 1 then
        (.failure ("Failed to fetch URL: " ++ msg), [.request])
      else
        let rest := loop parseDom jsonParse oracle url rt timeoutMs fuel (attempt + 1)
        (rest.1, .request :: .sleep (getRetryDelay attempt) :: rest.2)
    | .resp r =>
      if r.isOk then
        match processResponse parseDom jsonParse r rt url with
        | (.ok text, _) =>
          (.success text (mimeFor rt)
            { url := url.toStr, contentType := r.headers.contentType,
              contentLength := r.headers.contentLength,
              isGoogleSearch := decide (url.origin ++ url.pathname = GOOGLE_SEARCH_URL),
              responseType := rt }, [.request])
        | (.error m, _) =>
          if attempt = MAX_RETRIES - 1 then
            (.failure ("Failed to fetch URL: " ++ m), [.request])
          else
            let rest := loop parseDom jsonParse oracle url rt timeoutMs fuel (attempt + 1)
            (rest.1, .request :: .sleep (getRetryDelay attempt) :: rest.2)
      else if r.status = 429 then
        if attempt = MAX_RETRIES - 1 then
          (.failure "Rate limit exceeded. Please try again later.", [.request])
        else
          let rest := loop parseDom jsonParse oracle url rt timeoutMs fuel (attempt + 1)
          (rest.1, .request :: .sleep (getRetryDelay attempt) :: rest.2)
      else
        (.failure ("HTTP " ++ toString r.status ++ ": " ++ r.statusText), [.request])

/-- One fetch_url tool call: the retry loop started at attempt 0. -/
def runTool (parseDom : String → GDoc) (jsonParse : String → Option Json)
    (oracle : Nat → AttemptRes) (url : URLm) (rt : RType) (timeoutMs : Nat) :
    ToolResult × List Effect :=
  loop parseDom jsonParse oracle url rt timeoutMs MAX_RETRIES 0

end UrlFetcher

namespace AltFetcher

/-- Abstract view of one `[data-news-cluster-id]` element of the
unnamed-module extractor: the `[role="heading"]` child's textContent,
the first anchor's href attribute, and the heading's next sibling's
textContent (outer option = presence, inner option = null value). -/
structure NDiv where
  heading : Option (Option String)
  linkHref : Option (Option String)
  sibText : Option (Option String)
deriving DecidableEq, Repr

/-- Abstract view of one `.g` or `div.tF2Cxc` element of the
unnamed-module extractor: the `h3` textContent, the first anchor's
href attribute, and the `.VwiC3b` snippet textContent. -/
structure GDiv2 where
  h3Text : Option (Option String)
  linkHref : Option (Option String)
  snippetText : Option (Option String)
deriving DecidableEq, Repr

/-- Abstract view of a document parsed by the external happy-dom
library: the three selector result lists in document order. -/
structure GDoc2 where
  news : List NDiv
  gDivs : List GDiv2
  tF2Cxc : List GDiv2
deriving Repr

/-- Structured result of the unnamed-module extractor; the description
is optional (`undefined` stays absent). -/
structure SearchResult2 where
  title : String
  url : String
  description : Option String
deriving DecidableEq, Repr

/-- News branch loop body: the candidate is pushed only when both
elements exist and `title && url` is truthy; the description keeps its
possibly-undefined value. -/
def acceptNews (d : NDiv) : Option SearchResult2 :=
  match d.heading, d.linkHref with
  | some tc, some href =>
    let title := tc.map jsTrim
    let url := href
    let description := (d.sibText.bind id).map jsTrim
    if truthy title && truthy url then
      some { title := title.getD "", url := url.getD "", description := description }
    else none
  | _, _ => none

/-- General/alternative branch loop body (shared by the `.g` and
`div.tF2Cxc` strategies, which use identical extraction logic). -/
def acceptGen (d : GDiv2) : Option SearchResult2 :=
  match d.h3Text, d.linkHref with
  | some tc, some href =>
    let title := tc.map jsTrim
    let url := href
    let description := (d.snippetText.bind id).map jsTrim
    if truthy title && truthy url then
      some { title := title.getD "", url := url.getD "", description := description }
    else none
  | _, _ => none

/-- Result list built by the unnamed-module extractor: news clusters
first, falling back to `.g` elements and then to `div.tF2Cxc`, each
strategy tried only when the previous ones produced nothing. No cap is
applied (`MAX_SEARCH_RESULTS` is defined in that module but unused). -/
def collectResults2 (doc : GDoc2) : List SearchResult2 :=
  let results := doc.news.filterMap acceptNews
  let results := if results.isEmpty then doc.gDivs.filterMap acceptGen else results
  if results.isEmpty then doc.tF2Cxc.filterMap acceptGen else results

/-- JavaScript return value of the unnamed-module functions typed
`string | object[]`: a string, or an array of JSON-like objects. -/
inductive RetVal where
  | str (s : String)
  | arr (items : List Json)
deriving BEq, Repr

/-- JSON object for one result; `JSON.stringify` omits a property whose
value is `undefined`, so an absent description produces no key. -/
def SearchResult2.toJson (r : SearchResult2) : Json :=
  .obj ([("title", Json.str r.title), ("url", Json.str r.url)] ++
    (match r.description with
     | some d => [("description", Json.str d)]
     | none => []))

/-- Description suffix helper for the template literals, which test the
description with JavaScript truthiness (absent or empty gives no
suffix). -/
def descSuffix (d : Option String) (render : String → String) : String :=
  match d with
  | some s => if s = "" then "" else render s
  | none => ""

/-- Extract Google search results from HTML, from the unnamed module:
selector strategies in priority order, then the format switch. The
happy-dom parser is external and passed as `parseDom`; in this model
parsing is total. The `console.log` calls of the source are not part
of the modelled effect vocabulary. -/
def extractGoogleResults2 (parseDom : String → GDoc2) (html : String) (rt : RType) : RetVal :=
  let results := collectResults2 (parseDom html)
  match rt with
  | .markdown =>
    .str (String.intercalate "\n" (results.map fun r =>
      "- [" ++ r.title ++ "](" ++ r.url ++ ")" ++
        descSuffix r.description (fun d => "\n  " ++ d)))
  | .html =>
    .str (String.intercalate "\n" (results.map fun r =>
      "<div class=\"result\"><h3><a href=\"" ++ r.url ++ "\">" ++ r.title ++
        "</a></h3>" ++ descSuffix r.description (fun d => "<p>" ++ d ++ "</p>") ++ "</div>"))
  | .text =>
    .str (String.intercalate "\n\n" (results.map fun r =>
      r.title ++ "\n" ++ r.url ++ descSuffix r.description (fun d => "\n" ++ d)))
  | .json => .arr (results.map SearchResult2.toJson)

/-- Process response based on type, from the unnamed module: identical
to the src variant except that the Google branch maps unsupported
formats to json and stringifies an object result. -/
def processResponse2 (parseDom : String → GDoc2) (jsonParse : String → Option Json)
    (r : HttpResponse) (rt : RType) (url : URLm) : Except String String × Bool :=
  let contentType := r.headers.contentType.getD ""
  if sizeExceeded r.headers then (.error "Response too large", false)
  else
    let text := r.body
    if url.origin ++ url.pathname = GOOGLE_SEARCH_URL then
      let mappedType := if rt = .json ∨ rt = .markdown then rt else RType.json
      (match extractGoogleResults2 parseDom text mappedType with
       | .str s => (.ok s, true)
       | .arr items => (.ok (stringifyPretty (Json.arr items)), true))
    else (formatDispatch jsonParse rt contentType text, true)

/-- Outcome of one network call of the internal helpers: the fetch
layer threw (including the abort of the 5s timeout), or a response
arrived. -/
inductive NetRes where
  | thrown (msg : String) : NetRes
  | resp (r : HttpResponse) : NetRes

/-- Non-Google format switch of the internal `fetchUrl`. -/
def passthrough (rt : RType) (html : String) : RetVal :=
  match rt with
  | .markdown => .str (htmlToMarkdown html)
  | .html => .str html
  | .text => .str html
  | .json => .arr [Json.obj [("content", Json.str html)]]

/-- Internal `fetchUrl(url, responseType)` helper of the unnamed
module, used by the search orchestrator. A single attempt, no retries:
a non-ok status throws `HTTP error! status: N`, which the catch block
rewraps as `Failed to fetch URL: ...`. On success the body is written
to `fetchedPage.html` (a filesystem effect), then the URL is routed by
a string-prefix test against the Google endpoint. -/
def fetchUrl (parseDom : String → GDoc2) (net : String → NetRes) (url : String)
    (rt : RType := .json) : Except String RetVal × List Effect :=
  match net url with
  | .thrown m => (.error ("Failed to fetch URL: " ++ m), [.request])
  | .resp r =>
    if r.isOk then
      let html := r.body
      let effs : List Effect := [.request, .writeFile "fetchedPage.html"]
      if jsStartsWith url GOOGLE_SEARCH_URL then
        (.ok (extractGoogleResults2 parseDom html rt), effs)
      else (.ok (passthrough rt html), effs)
    else
      (.error ("Failed to fetch URL: HTTP error! status: " ++ toString r.status), [.request])

/-- Response type of `fetchUrlWithParams`, restricted by its zod schema
to `json` or `markdown`. -/
inductive RTypeJM where
  | json
  | markdown
deriving DecidableEq, Repr

/-- Inclusion of the restricted response type into the full enum. -/
def RTypeJM.toRType : RTypeJM → RType
  | .json => .json
  | .markdown => .markdown

/-- Internal `fetchUrlWithParams` helper of the unnamed module: like
`fetchUrl` but taking a URL object, routing by origin+pathname
equality, performing no filesystem write, and returning the raw body
for `markdown` (no conversion). -/
def fetchUrlWithParams (parseDom : String → GDoc2) (net : String → NetRes)
    (url : URLm) (rt : RTypeJM) : Except String RetVal :=
  match net url.toStr with
  | .thrown m => .error ("Failed to fetch URL: " ++ m)
  | .resp r =>
    if r.isOk then
      let html := r.body
      if url.origin ++ url.pathname = GOOGLE_SEARCH_URL then
        .ok (extractGoogleResults2 parseDom html rt.toRType)
      else
        match rt with
        | .markdown => .ok (.str html)
        | .json => .ok (.arr [Json.obj [("content", Json.str html)]])
    else .error ("Failed to fetch URL: HTTP error! status: " ++ toString r.status)

end AltFetcher

namespace DeepSearch

/-- Topic of a google_search call: web or news tab. -/
inductive Topic where
  | web
  | news
deriving DecidableEq, Repr

/-- Uppercase hexadecimal digit, for percent-encoding. -/
def hexUpper (n : Nat) : Char :=
  if n < 10 then Char.ofNat ('0'.toNat + n) else Char.ofNat ('A'.toNat + n - 10)

/-- Modelled from the platform `URLSearchParams` serializer: one
character of application/x-www-form-urlencoded output (unreserved
characters kept, space as `+`, everything else percent-encoded by
UTF-8 byte). -/
def encodeFormChar (c : Char) : String :=
  if c.isAlphanum ∨ c = '*' ∨ c = '-' ∨ c = '.' ∨ c = '_' then String.singleton c
  else if c = ' ' then "+"
  else
    String.join (((String.singleton c).toUTF8.toList).map fun b =>
      "%" ++ String.singleton (hexUpper (b.toNat / 16)) ++
        String.singleton (hexUpper (b.toNat % 16)))

/-- Form-urlencoding of one parameter name or value. -/
def encodeForm (s : String) : String :=
  String.join (s.toList.map encodeFormChar)

/-- Build a Google search URL with proper parameters, from the
google-search module: `q` and `num` (`options.maxResults || 10`, so a
zero count falls back to 10), then `tbm=nws` for news or `udm=14` for
web. -/
def buildGoogleSearchUrl (query : String) (maxResults : Nat) (topic : Topic) : String :=
  let num := toString (if maxResults = 0 then 10 else maxResults)
  let ps := [("q", query), ("num", num)] ++
    [if topic = Topic.news then ("tbm", "nws") else ("udm", "14")]
  "https://www.google.com/search?" ++
    String.intercalate "&" (ps.map fun p => encodeForm p.1 ++ "=" ++ encodeForm p.2)

/-- Scanner for the markdown-link regex `\[.*?\]\((.*?)\)` with global
matching: at an opening bracket, the lazy groups reach the nearest
following `](` and `)` (dots do not cross newlines); on failure the
scan advances one character, as the regex engine does. -/
def mdLinkUrls : Nat → List Char → List String
  | 0, _ => []
  | _ + 1, [] => []
  | fuel + 1, c :: cs =>
    if c = '[' then
      match scanUntil (matchCS "](".toList) cs with
      | some (_, afterBracket) =>
        match scanUntil (matchCS ")".toList) afterBracket with
        | some (urlChars, rest) => String.mk urlChars :: mdLinkUrls fuel rest
        | none => mdLinkUrls fuel cs
      | none => mdLinkUrls fuel cs
    else mdLinkUrls fuel cs

/-- URLs of all markdown links in a string, in order. -/
def markdownLinkUrls (s : String) : List String :=
  mdLinkUrls (s.toList.length + 1) s.toList

/-- Extract URLs from search results, from the google-search module: a
string result is scanned for markdown links, an object array is mapped
over its `url` properties (`none` models the `undefined` produced for
an object without a string `url`). -/
def extractSearchUrls : AltFetcher.RetVal → List (Option String)
  | .str s => (markdownLinkUrls s).map some
  | .arr items =>
    items.map fun j =>
      match j with
      | .obj fields =>
        match fields.lookup "url" with
        | some (Json.str s) => some s
        | _ => none
      | _ => none

/-- One aggregated entry of the deep-search fan-out: the fetched URL,
its content on success, or the caught error message. -/
structure UrlEntry where
  url : Option String
  content : Option AltFetcher.RetVal
  error : Option String
deriving BEq, Repr

/-- JSON rendering of one aggregate entry, with `JSON.stringify`
omitting an `undefined` url and serializing explicit nulls. -/
def UrlEntry.toJson (e : UrlEntry) : Json :=
  .obj ((match e.url with
         | some u => [("url", Json.str u)]
         | none => []) ++
    [("content", match e.content with
                 | some (.str s) => Json.str s
                 | some (.arr l) => Json.arr l
                 | none => Json.null),
     ("error", match e.error with
               | some m => Json.str m
               | none => Json.null)])

/-- Template interpolation of a possibly-undefined URL. -/
def showUrl : Option String → String
  | some u => u
  | none => "undefined"

/-- Template interpolation of a content value (`String(array)` joins
elements with commas, a plain object displays as `[object Object]`,
`null` displays literally). -/
def showContent : Option AltFetcher.RetVal → String
  | some (.str s) => s
  | some (.arr l) => String.intercalate "," (l.map fun _ => "[object Object]")
  | none => "null"

/-- Per-URL fan-out of the deep google_search handler: each extracted
URL is fetched through the internal `fetchUrl` inside its own
try/catch, producing a success entry or an entry carrying the error
message; an `undefined` URL makes the fetch layer throw. -/
def fullResultsOf (parseDom : String → AltFetcher.GDoc2) (net : String → AltFetcher.NetRes)
    (rt : RType) (urls : List (Option String)) : List UrlEntry :=
  urls.map fun ou =>
    let fetched : Except String AltFetcher.RetVal :=
      match ou with
      | some u => (AltFetcher.fetchUrl parseDom net u rt).1
      | none => .error "Failed to fetch URL: Invalid URL"
    match fetched with
    | .ok c => { url := ou, content := some c, error := none }
    | .error m => { url := ou, content := none, error := some m }

/-- Format switch over the aggregated results, reproducing the
handler's template literals (entries with a truthy error render their
error branch). -/
def renderDeep (rt : RType) (rs : List UrlEntry) : String :=
  match rt with
  | .markdown =>
    String.intercalate "\n\n---\n\n" (rs.map fun r =>
      if truthy r.error then
        "## [Failed to fetch: " ++ showUrl r.url ++ "]\nError: " ++ (r.error.getD "")
      else "## [" ++ showUrl r.url ++ "]\n\n" ++ showContent r.content)
  | .html =>
    String.intercalate "\n" (rs.map fun r =>
      if truthy r.error then
        "<div class=\"search-result error\"><h2><a href=\"" ++ showUrl r.url ++
          "\">Failed to fetch</a></h2><p class=\"error\">" ++ (r.error.getD "") ++ "</p></div>"
      else
        "<div class=\"search-result\"><h2><a href=\"" ++ showUrl r.url ++ "\">" ++
          showUrl r.url ++ "</a></h2>" ++ showContent r.content ++ "</div>")
  | .text =>
    String.intercalate "\n\n==========\n\n" (rs.map fun r =>
      if truthy r.error then "### " ++ showUrl r.url ++ "\nError: " ++ (r.error.getD "")
      else "### " ++ showUrl r.url ++ "\n\n" ++ showContent r.content)
  | .json => stringifyPretty (Json.arr (rs.map UrlEntry.toJson))

/-- Metadata object of a successful google_search envelope. -/
structure GSMeta where
  query : String
  topic : Topic
  maxResults : Nat
  responseType : RType
  resultsCount : Nat
  successCount : Nat
deriving BEq, Repr

/-- Terminal envelope of one google_search call. -/
inductive GSResult where
  | success (text : String) (mimeType : String) (meta : GSMeta) : GSResult
  | failure (text : String) : GSResult
deriving BEq, Repr

/-- Deep google_search handler, from the google-search module: fetch
the results page in json format through the internal `fetchUrl`,
extract the result URLs, fan out over them (each failure captured in
its own entry), and return a success envelope with the formatted
aggregate and result/success counts. Only a failure of the initial
search fetch reaches the outer catch and produces an error envelope. -/
def googleSearch (parseDom : String → AltFetcher.GDoc2) (net : String → AltFetcher.NetRes)
    (query : String) (rt : RType) (maxResults : Nat) (topic : Topic) : GSResult :=
  let searchUrl := buildGoogleSearchUrl query maxResults topic
  match (AltFetcher.fetchUrl parseDom net searchUrl .json).1 with
  | .error m => .failure ("Failed to execute Google search: " ++ m)
  | .ok sr =>
    let urls := extractSearchUrls sr
    let fullResults := fullResultsOf parseDom net rt urls
    .success (renderDeep rt fullResults) (mimeFor rt)
      { query := query, topic := topic, maxResults := maxResults, responseType := rt,
        resultsCount := fullResults.length,
        successCount := (fullResults.filter fun r => ¬ truthy r.error).length }

end DeepSearch


section Helpers

/-- Helper: a truthy optional string defaults to a non-empty string. -/
theorem truthy_getD_ne {o : Option String} (h : truthy o = true) : o.getD "" ≠ "" := by
  cases o with
  | none => simp [truthy] at h
  | some s => simpa [truthy] using h

/-- Helper: the fields of any candidate accepted by the src extractor
loop body are non-empty strings. -/
theorem acceptDiv_fields {d : UrlFetcher.GDiv} {r : UrlFetcher.SearchResult}
    (h : UrlFetcher.acceptDiv d = some r) : r.title ≠ "" ∧ r.url ≠ "" := by
  unfold UrlFetcher.acceptDiv at h
  by_cases hc : (truthy (UrlFetcher.titleOf d) && truthy (UrlFetcher.urlOf d)) = true
  · rw [if_pos hc] at h
    rw [Bool.and_eq_true] at hc
    cases h
    exact ⟨truthy_getD_ne hc.1, truthy_getD_ne hc.2⟩
  · rw [if_neg hc] at h
    cases h

/-- Helper: the fields of any candidate accepted by the news branch of
the variant extractor are non-empty strings. -/
theorem acceptNews_fields {d : AltFetcher.NDiv} {r : AltFetcher.SearchResult2}
    (h : AltFetcher.acceptNews d = some r) : r.title ≠ "" ∧ r.url ≠ "" := by
  obtain ⟨hd, lk, sb⟩ := d
  cases hd with
  | none => simp [AltFetcher.acceptNews] at h
  | some tc =>
    cases lk with
    | none => simp [AltFetcher.acceptNews] at h
    | some hv =>
      unfold AltFetcher.acceptNews at h
      simp only at h
      split at h
      · next hc =>
        rw [Bool.and_eq_true] at hc
        cases h
        exact ⟨truthy_getD_ne hc.1, truthy_getD_ne hc.2⟩
      · cases h

/-- Helper: the fields of any candidate accepted by the general or
alternative branch of the variant extractor are non-empty strings. -/
theorem acceptGen_fields {d : AltFetcher.GDiv2} {r : AltFetcher.SearchResult2}
    (h : AltFetcher.acceptGen d = some r) : r.title ≠ "" ∧ r.url ≠ "" := by
  obtain ⟨hd, lk, sn⟩ := d
  cases hd with
  | none => simp [AltFetcher.acceptGen] at h
  | some tc =>
    cases lk with
    | none => simp [AltFetcher.acceptGen] at h
    | some hv =>
      unfold AltFetcher.acceptGen at h
      simp only at h
      split at h
      · next hc =>
        rw [Bool.and_eq_true] at hc
        cases h
        exact ⟨truthy_getD_ne hc.1, truthy_getD_ne hc.2⟩
      · cases h

end Helpers

/-- Concrete candidate with a non-empty title and a whitespace-only
href attribute. -/
def c1div : UrlFetcher.GDiv :=
  { h3Text := some (some "Hello"), linkHref := some (some " "), descText := none }

/-- Concrete one-candidate document for the C1 counterexample. -/
def c1doc : UrlFetcher.GDoc :=
  { gDivs := [c1div], tF2Cxc := [] }

/-- C1 counterexample: the claim that a candidate is accepted only if
its URL is non-empty after trimming whitespace is false — the href is
tested untrimmed, so the extractor accepts a candidate whose href is a
whitespace-only string, and the accepted entry's URL trims to the
empty string. -/
theorem spec_c1_counterexample :
    UrlFetcher.collectResults c1doc =
      [{ title := "Hello", url := " ", description := "No description" }] ∧
    jsTrim " " = "" :=
  ⟨rfl, rfl⟩

/-- C1 (amended): both extractors accept a candidate exactly when the
trimmed title and the raw (untrimmed) href are truthy, so every entry
returned by either extractor has a non-empty title string and a
non-empty — though possibly whitespace-only — URL string. -/
theorem spec_c1_nonempty :
    (∀ (doc : UrlFetcher.GDoc) (r : UrlFetcher.SearchResult),
       r ∈ UrlFetcher.collectResults doc → r.title ≠ "" ∧ r.url ≠ "") ∧
    (∀ (doc : AltFetcher.GDoc2) (r : AltFetcher.SearchResult2),
       r ∈ AltFetcher.collectResults2 doc → r.title ≠ "" ∧ r.url ≠ "") := by
  constructor
  · intro doc r hr
    unfold UrlFetcher.collectResults at hr
    simp only [] at hr
    split at hr
    · obtain ⟨d, _, hd⟩ := List.mem_filterMap.mp hr
      exact acceptDiv_fields hd
    · obtain ⟨d, _, hd⟩ := List.mem_filterMap.mp hr
      exact acceptDiv_fields hd
  · intro doc r hr
    unfold AltFetcher.collectResults2 at hr
    simp only [] at hr
    split at hr
    · split at hr
      · obtain ⟨d, _, hd⟩ := List.mem_filterMap.mp hr
        exact acceptGen_fields hd
      · obtain ⟨d, _, hd⟩ := List.mem_filterMap.mp hr
        exact acceptGen_fields hd
    · obtain ⟨d, _, hd⟩ := List.mem_filterMap.mp hr
      exact acceptNews_fields hd

/-- C1 witness: the amended invariant applied to the accepted entry of
the concrete document of the counterexample. -/
theorem spec_c1_nonempty_witness :
    ({ title := "Hello", url := " ", description := "No description" } :
      UrlFetcher.SearchResult).title ≠ "" ∧
    ({ title := "Hello", url := " ", description := "No description" } :
      UrlFetcher.SearchResult).url ≠ "" :=
  spec_c1_nonempty.1 c1doc _ (by decide)

/-- Concrete valid candidate for the C6 counterexample. -/
def c6div : AltFetcher.GDiv2 :=
  { h3Text := some (some "T"), linkHref := some (some "https://t.example/"), snippetText := none }

/-- Concrete document with six valid general results. -/
def c6doc : AltFetcher.GDoc2 :=
  { news := [], gDivs := [c6div, c6div, c6div, c6div, c6div, c6div], tF2Cxc := [] }

/-- C6 counterexample: the variant extractor of the unnamed url-fetcher
module applies no cap — on a document with six valid candidates it
returns all six results, exceeding the configured maximum of
MAX_SEARCH_RESULTS = 5 (that constant is defined but unused in that
module). -/
theorem spec_c6_counterexample :
    (AltFetcher.collectResults2 c6doc).length = 6 ∧ MAX_SEARCH_RESULTS < 6 :=
  ⟨rfl, by decide⟩

/-- C6 (amended): the src/url-fetcher.ts extractor returns at most
MAX_SEARCH_RESULTS results, and its output is a sublist (in document
order of discovery) of the accepted candidates of the strategy it
used; the variant extractor of the unnamed module returns the complete
accepted-candidate list of the first non-empty strategy, with no
maximum applied. -/
theorem spec_c6_cap :
    (∀ doc : UrlFetcher.GDoc,
       (UrlFetcher.collectResults doc).length ≤ MAX_SEARCH_RESULTS) ∧
    (∀ doc : UrlFetcher.GDoc,
       List.Sublist (UrlFetcher.collectResults doc) (doc.gDivs.filterMap UrlFetcher.acceptDiv) ∨
       List.Sublist (UrlFetcher.collectResults doc) (doc.tF2Cxc.filterMap UrlFetcher.acceptDiv)) ∧
    (∀ doc : AltFetcher.GDoc2,
       AltFetcher.collectResults2 doc = doc.news.filterMap AltFetcher.acceptNews ∨
       AltFetcher.collectResults2 doc = doc.gDivs.filterMap AltFetcher.acceptGen ∨
       AltFetcher.collectResults2 doc = doc.tF2Cxc.filterMap AltFetcher.acceptGen) := by
  refine ⟨?_, ?_, ?_⟩
  · intro doc
    unfold UrlFetcher.collectResults
    simp only []
    split
    · calc ((doc.tF2Cxc.take MAX_SEARCH_RESULTS).filterMap UrlFetcher.acceptDiv).length
          ≤ (doc.tF2Cxc.take MAX_SEARCH_RESULTS).length := List.length_filterMap_le _ _
        _ ≤ MAX_SEARCH_RESULTS := by simp [List.length_take]
    · calc ((doc.gDivs.take MAX_SEARCH_RESULTS).filterMap UrlFetcher.acceptDiv).length
          ≤ (doc.gDivs.take MAX_SEARCH_RESULTS).length := List.length_filterMap_le _ _
        _ ≤ MAX_SEARCH_RESULTS := by simp [List.length_take]
  · intro doc
    unfold UrlFetcher.collectResults
    simp only []
    split
    · right
      exact List.Sublist.filterMap _ (List.take_sublist _ _)
    · left
      exact List.Sublist.filterMap _ (List.take_sublist _ _)
  · intro doc
    unfold AltFetcher.collectResults2
    simp only []
    split
    · split
      · right; right; rfl
      · right; left; rfl
    · left; rfl

/-- Trivial DOM oracle returning an empty parsed document. -/
def pdT : String → UrlFetcher.GDoc := fun _ => { gDivs := [], tF2Cxc := [] }

/-- Trivial JSON-parse oracle: every body fails to parse. -/
def jpN : String → Option Json := fun _ => none

/-- Concrete non-Google URL. -/
def urlPlain : URLm := { origin := "https://example.com", pathname := "/", search := "" }

/-- Concrete 429 response. -/
def r429c : HttpResponse :=
  { status := 429, statusText := "Too Many Requests",
    headers := { contentType := none, contentLength := none }, body := "" }

/-- Concrete 200 response with a plain-text body. -/
def r200c : HttpResponse :=
  { status := 200, statusText := "OK",
    headers := { contentType := some "text/plain", contentLength := none }, body := "hello" }

/-- Oracle answering 429 on the first two attempts and 200 on the
third. -/
def orc429 : Nat → UrlFetcher.AttemptRes := fun a => if a < 2 then .resp r429c else .resp r200c

/-- Oracle answering 429 on every attempt. -/
def orc429all : Nat → UrlFetcher.AttemptRes := fun _ => .resp r429c

/-- Metadata of the successful third attempt of the 429/429/200
scenario. -/
def metaC2 : UrlFetcher.FetchMeta :=
  { url := "https://example.com/", contentType := some "text/plain", contentLength := none,
    isGoogleSearch := false, responseType := .text }

/-- C2: a 429 response on a non-final attempt produces exactly one
backoff sleep of duration getRetryDelay attempt followed by the next
attempt; successive delays are strictly increasing; 429 on the first
two attempts followed by 200 yields a success envelope with exactly
the two sleeps 1000 and 2000 (increasing); 429 on the final attempt
yields the explicit rate-limit error with no further sleep. -/
theorem spec_c2_backoff :
    (∀ (pd : String → UrlFetcher.GDoc) (jp : String → Option Json)
       (orc : Nat → UrlFetcher.AttemptRes) (u : URLm) (rt : RType) (t fuel a : Nat)
       (r : HttpResponse),
       orc a = .resp r → r.status = 429 → a ≠ MAX_RETRIES - 1 →
       UrlFetcher.loop pd jp orc u rt t (fuel + 1) a =
         ((UrlFetcher.loop pd jp orc u rt t fuel (a + 1)).1,
           .request :: .sleep (getRetryDelay a) ::
             (UrlFetcher.loop pd jp orc u rt t fuel (a + 1)).2)) ∧
    (∀ a : Nat, getRetryDelay a < getRetryDelay (a + 1)) ∧
    (UrlFetcher.runTool pdT jpN orc429 urlPlain .text 30000 =
       (.success "hello" "text/plain" metaC2,
         [.request, .sleep 1000, .request, .sleep 2000, .request]) ∧
     sleepsOf (UrlFetcher.runTool pdT jpN orc429 urlPlain .text 30000).2 = [1000, 2000] ∧
     1000 < 2000) ∧
    (UrlFetcher.runTool pdT jpN orc429all urlPlain .text 30000 =
       (.failure "Rate limit exceeded. Please try again later.",
         [.request, .sleep 1000, .request, .sleep 2000, .request])) := by
  refine ⟨?_, ?_, ⟨rfl, rfl, by decide⟩, rfl⟩
  · intro pd jp orc u rt t fuel a r ho hs ha
    have hok : r.isOk = false := by
      simp [HttpResponse.isOk, hs]
    rw [UrlFetcher.loop, ho]
    simp only [hok, hs, ha]
    simp
  · intro a
    have h1 : 1 ≤ 2 ^ a := Nat.one_le_two_pow
    simp only [getRetryDelay, INITIAL_RETRY_DELAY, pow_succ]
    omega

/-- C2 witness: the backoff step applied at attempt 0 of the concrete
429/429/200 oracle. -/
theorem spec_c2_backoff_witness :
    UrlFetcher.loop pdT jpN orc429 urlPlain .text 30000 3 0 =
      ((UrlFetcher.loop pdT jpN orc429 urlPlain .text 30000 2 1).1,
        .request :: .sleep (getRetryDelay 0) ::
          (UrlFetcher.loop pdT jpN orc429 urlPlain .text 30000 2 1).2) :=
  spec_c2_backoff.1 pdT jpN orc429 urlPlain .text 30000 2 0 r429c rfl rfl (by decide)

/-- Concrete 404 response. -/
def r404c : HttpResponse :=
  { status := 404, statusText := "Not Found",
    headers := { contentType := none, contentLength := none }, body := "" }

/-- Oracle answering 404 on every attempt. -/
def orc404 : Nat → UrlFetcher.AttemptRes := fun _ => .resp r404c

/-- C3: any non-2xx response other than 429 terminates the attempt
loop immediately with an error carrying the status code and reason
phrase; the trace of that attempt is a single request with no backoff
sleep and no retry, and the concrete 404 run produces exactly one
request. -/
theorem spec_c3_http_error :
    (∀ (pd : String → UrlFetcher.GDoc) (jp : String → Option Json)
       (orc : Nat → UrlFetcher.AttemptRes) (u : URLm) (rt : RType) (t fuel a : Nat)
       (r : HttpResponse),
       orc a = .resp r → r.isOk = false → r.status ≠ 429 →
       UrlFetcher.loop pd jp orc u rt t (fuel + 1) a =
         (.failure ("HTTP " ++ toString r.status ++ ": " ++ r.statusText), [.request])) ∧
    (UrlFetcher.runTool pdT jpN orc404 urlPlain .text 30000 =
       (.failure "HTTP 404: Not Found", [.request])) := by
  refine ⟨?_, rfl⟩
  intro pd jp orc u rt t fuel a r ho hok hs
  rw [UrlFetcher.loop, ho]
  simp only [hok, hs]
  simp

/-- C3 witness: the immediate-error step applied to the concrete 404
oracle at attempt 0. -/
theorem spec_c3_http_error_witness :
    UrlFetcher.loop pdT jpN orc404 urlPlain .text 30000 3 0 =
      (.failure ("HTTP " ++ toString (404 : Nat) ++ ": " ++ "Not Found"), [.request]) :=
  spec_c3_http_error.1 pdT jpN orc404 urlPlain .text 30000 2 0 _ rfl rfl (by decide)

/-- Trivial DOM oracle for the variant document shape. -/
def pdT2 : String → AltFetcher.GDoc2 := fun _ => { news := [], gDivs := [], tF2Cxc := [] }

/-- C4: in both processResponse variants, a present content-length
header whose numeric value exceeds MAX_RESPONSE_SIZE makes processing
fail with the size-limit error before the body is read (the body-read
flag is false, and the result does not depend on the body); an absent
header or a value within the limit lets control reach the body read. -/
theorem spec_c4_size_limit :
    (∀ (pd : String → UrlFetcher.GDoc) (jp : String → Option Json) (rt : RType) (u : URLm)
       (st : Nat) (stx : String) (ct : Option String) (s body : String) (n : Int),
       parseIntJS s = some n → (MAX_RESPONSE_SIZE : Int) < n →
       UrlFetcher.processResponse pd jp ⟨st, stx, ⟨ct, some s⟩, body⟩ rt u =
         (.error "Response too large", false)) ∧
    (∀ (pd : String → UrlFetcher.GDoc) (jp : String → Option Json) (rt : RType) (u : URLm)
       (st : Nat) (stx : String) (ct : Option String) (body : String),
       (UrlFetcher.processResponse pd jp ⟨st, stx, ⟨ct, none⟩, body⟩ rt u).2 = true) ∧
    (∀ (pd : String → UrlFetcher.GDoc) (jp : String → Option Json) (rt : RType) (u : URLm)
       (st : Nat) (stx : String) (ct : Option String) (s body : String) (n : Int),
       parseIntJS s = some n → n ≤ (MAX_RESPONSE_SIZE : Int) →
       (UrlFetcher.processResponse pd jp ⟨st, stx, ⟨ct, some s⟩, body⟩ rt u).2 = true) ∧
    (∀ (pd : String → AltFetcher.GDoc2) (jp : String → Option Json) (rt : RType) (u : URLm)
       (st : Nat) (stx : String) (ct : Option String) (s body : String) (n : Int),
       parseIntJS s = some n → (MAX_RESPONSE_SIZE : Int) < n →
       AltFetcher.processResponse2 pd jp ⟨st, stx, ⟨ct, some s⟩, body⟩ rt u =
         (.error "Response too large", false)) ∧
    (∀ (pd : String → AltFetcher.GDoc2) (jp : String → Option Json) (rt : RType) (u : URLm)
       (st : Nat) (stx : String) (ct : Option String) (body : String),
       (AltFetcher.processResponse2 pd jp ⟨st, stx, ⟨ct, none⟩, body⟩ rt u).2 = true) ∧
    (∀ (pd : String → AltFetcher.GDoc2) (jp : String → Option Json) (rt : RType) (u : URLm)
       (st : Nat) (stx : String) (ct : Option String) (s body : String) (n : Int),
       parseIntJS s = some n → n ≤ (MAX_RESPONSE_SIZE : Int) →
       (AltFetcher.processResponse2 pd jp ⟨st, stx, ⟨ct, some s⟩, body⟩ rt u).2 = true) := by
  refine ⟨?_, ?_, ?_, ?_, ?_, ?_⟩
  · intro pd jp rt u st stx ct s body n hp hn
    have hsz : sizeExceeded ⟨ct, some s⟩ = true := by
      simp [sizeExceeded, hp]
      omega
    simp [UrlFetcher.processResponse, hsz]
  · intro pd jp rt u st stx ct body
    have hsz : sizeExceeded ⟨ct, none⟩ = false := rfl
    simp only [UrlFetcher.processResponse, hsz, Bool.false_eq_true, if_false]
    rw [apply_ite Prod.snd]
    simp
  · intro pd jp rt u st stx ct s body n hp hn
    have hsz : sizeExceeded ⟨ct, some s⟩ = false := by
      simp [sizeExceeded, hp]
      omega
    simp only [UrlFetcher.processResponse, hsz, Bool.false_eq_true, if_false]
    rw [apply_ite Prod.snd]
    simp
  · intro pd jp rt u st stx ct s body n hp hn
    have hsz : sizeExceeded ⟨ct, some s⟩ = true := by
      simp [sizeExceeded, hp]
      omega
    simp [AltFetcher.processResponse2, hsz]
  · intro pd jp rt u st stx ct body
    have hsz : sizeExceeded ⟨ct, none⟩ = false := rfl
    simp only [AltFetcher.processResponse2, hsz, Bool.false_eq_true, if_false]
    rw [apply_ite Prod.snd]
    split
    · cases AltFetcher.extractGoogleResults2 pd body _ <;> rfl
    · rfl
  · intro pd jp rt u st stx ct s body n hp hn
    have hsz : sizeExceeded ⟨ct, some s⟩ = false := by
      simp [sizeExceeded, hp]
      omega
    simp only [AltFetcher.processResponse2, hsz, Bool.false_eq_true, if_false]
    rw [apply_ite Prod.snd]
    split
    · cases AltFetcher.extractGoogleResults2 pd body _ <;> rfl
    · rfl

/-- C4 witness: the size gate evaluated at a header one byte over the
limit, one exactly at the limit, and an absent header. -/
theorem spec_c4_size_limit_witness :
    UrlFetcher.processResponse pdT jpN
        ⟨200, "OK", ⟨some "text/plain", some "10485761"⟩, "b"⟩ .text urlPlain =
      (.error "Response too large", false) ∧
    (UrlFetcher.processResponse pdT jpN
        ⟨200, "OK", ⟨some "text/plain", some "10485760"⟩, "b"⟩ .text urlPlain).2 = true ∧
    (AltFetcher.processResponse2 pdT2 jpN
        ⟨200, "OK", ⟨some "text/plain", none⟩, "b"⟩ .text urlPlain).2 = true :=
  ⟨spec_c4_size_limit.1 pdT jpN .text urlPlain 200 "OK" (some "text/plain") "10485761" "b"
      10485761 rfl (by decide),
   spec_c4_size_limit.2.2.1 pdT jpN .text urlPlain 200 "OK" (some "text/plain") "10485760" "b"
      10485760 rfl (by decide),
   spec_c4_size_limit.2.2.2.2.1 pdT2 jpN .text urlPlain 200 "OK" (some "text/plain") "b"⟩

/-- Concrete URL object for the canonical Google search endpoint. -/
def gurlC : URLm := { origin := "https://www.google.com", pathname := "/search", search := "?q=x" }

/-- Concrete Google results-page response declaring text/html. -/
def resp5c : HttpResponse :=
  { status := 200, statusText := "OK",
    headers := { contentType := some "text/html", contentLength := none }, body := "x" }

/-- Concrete response declaring an over-limit content-length. -/
def respBigC : HttpResponse :=
  { status := 200, statusText := "OK",
    headers := { contentType := some "text/plain", contentLength := some "20000000" }, body := "x" }

/-- C5 counterexample: the claim that requesting json against a
content-type without application/json ALWAYS fails is false — on the
Google search endpoint the extractor runs instead and a body is
returned despite a text/html content-type, and an over-limit
content-length fails with the size error rather than the content-type
error. -/
theorem spec_c5_counterexample :
    UrlFetcher.processResponse pdT jpN resp5c .json gurlC = (.ok "[]", true) ∧
    jsIncludes "text/html" "application/json" = false ∧
    UrlFetcher.processResponse pdT jpN respBigC .json urlPlain =
      (.error "Response too large", false) :=
  ⟨rfl, rfl, rfl⟩

/-- C5 (amended): for responses that pass the size check and whose URL
is not the Google search endpoint, requesting json fails with
"Response is not JSON" whenever the declared content-type does not
include application/json (no body is returned), and when it does and
the body parses, the result is the parsed value re-serialized with the
stable 2-space pretty-printing. -/
theorem spec_c5_json_guard :
    ∀ (pd : String → UrlFetcher.GDoc) (jp : String → Option Json) (r : HttpResponse) (u : URLm),
      sizeExceeded r.headers = false → u.origin ++ u.pathname ≠ GOOGLE_SEARCH_URL →
      (jsIncludes (r.headers.contentType.getD "") "application/json" = false →
        UrlFetcher.processResponse pd jp r .json u = (.error "Response is not JSON", true)) ∧
      (∀ v : Json, jsIncludes (r.headers.contentType.getD "") "application/json" = true →
        jp r.body = some v →
        UrlFetcher.processResponse pd jp r .json u = (.ok (stringifyPretty v), true)) := by
  intro pd jp r u hsz hg
  constructor
  · intro hct
    simp only [UrlFetcher.processResponse, hsz, Bool.false_eq_true, if_false, if_neg hg]
    simp [formatDispatch, hct]
  · intro v hct hparse
    simp only [UrlFetcher.processResponse, hsz, Bool.false_eq_true, if_false, if_neg hg]
    simp [formatDispatch, hct, hparse]

/-- JSON-parse oracle returning the empty array for every body. -/
def jpArr : String → Option Json := fun _ => some (.arr [])

/-- C5 witness: the json guard applied to a text/plain response and to
a parseable application/json response. -/
theorem spec_c5_json_guard_witness :
    UrlFetcher.processResponse pdT jpN
        ⟨200, "OK", ⟨some "text/plain", none⟩, "b"⟩ .json urlPlain =
      (.error "Response is not JSON", true) ∧
    UrlFetcher.processResponse pdT jpArr
        ⟨200, "OK", ⟨some "application/json", none⟩, "[]"⟩ .json urlPlain =
      (.ok (stringifyPretty (Json.arr [])), true) :=
  ⟨(spec_c5_json_guard pdT jpN ⟨200, "OK", ⟨some "text/plain", none⟩, "b"⟩ urlPlain rfl
      (by decide)).1 rfl,
   (spec_c5_json_guard pdT jpArr ⟨200, "OK", ⟨some "application/json", none⟩, "[]"⟩ urlPlain rfl
      (by decide)).2 (Json.arr []) rfl rfl⟩

/-- DOM oracle parsing every body into a one-news-result document. -/
def pd1c : String → AltFetcher.GDoc2 := fun _ =>
  { news := [{ heading := some (some "T"), linkHref := some (some "https://t.example/"),
               sibText := none }],
    gDivs := [], tF2Cxc := [] }

/-- Network oracle answering every URL with a 200 text/html page. -/
def netSMc : String → AltFetcher.NetRes := fun _ =>
  .resp { status := 200, statusText := "OK",
          headers := { contentType := some "text/html", contentLength := none }, body := "B" }

/-- C7 counterexample: the internal fetchUrl matches the Google
endpoint by string prefix, not by origin+path equality — on the URL
https://www.google.com/searchmore it applies result extraction even
though origin+path differs from the canonical endpoint, so the claimed
matching rule does not hold on every fetch path. -/
theorem spec_c7_counterexample :
    (AltFetcher.fetchUrl pd1c netSMc "https://www.google.com/searchmore" .json).1 =
      .ok (AltFetcher.extractGoogleResults2 pd1c "B" .json) ∧
    (AltFetcher.fetchUrl pd1c netSMc "https://www.google.com/searchmore" .json).1 =
      .ok (.arr [Json.obj [("title", Json.str "T"), ("url", Json.str "https://t.example/")]]) ∧
    urlOriginPath "https://www.google.com/searchmore" ≠ GOOGLE_SEARCH_URL :=
  ⟨rfl, rfl, by decide⟩

/-- C7 (amended): processResponse (fetch_url handler path) and
fetchUrlWithParams decide extraction by origin+path equality with the
canonical endpoint — a matching URL gets the extractor, a
non-matching URL gets the format dispatch or raw-body route — while
the internal fetchUrl decides it by a string-prefix test of the raw
URL against the endpoint, in both directions as well. -/
theorem spec_c7_routing :
    (∀ (pd : String → UrlFetcher.GDoc) (jp : String → Option Json) (r : HttpResponse)
       (rt : RType) (u : URLm), sizeExceeded r.headers = false →
       (u.origin ++ u.pathname = GOOGLE_SEARCH_URL →
         UrlFetcher.processResponse pd jp r rt u =
           (.ok (UrlFetcher.extractGoogleResults pd r.body rt), true)) ∧
       (u.origin ++ u.pathname ≠ GOOGLE_SEARCH_URL →
         UrlFetcher.processResponse pd jp r rt u =
           (formatDispatch jp rt (r.headers.contentType.getD "") r.body, true))) ∧
    (∀ (pd : String → AltFetcher.GDoc2) (net : String → AltFetcher.NetRes) (u : URLm)
       (rt : AltFetcher.RTypeJM) (r : HttpResponse),
       net u.toStr = .resp r → r.isOk = true →
       (u.origin ++ u.pathname = GOOGLE_SEARCH_URL →
         AltFetcher.fetchUrlWithParams pd net u rt =
           .ok (AltFetcher.extractGoogleResults2 pd r.body rt.toRType)) ∧
       (u.origin ++ u.pathname ≠ GOOGLE_SEARCH_URL →
         AltFetcher.fetchUrlWithParams pd net u rt =
           .ok (match rt with
                | .markdown => AltFetcher.RetVal.str r.body
                | .json => AltFetcher.RetVal.arr [Json.obj [("content", Json.str r.body)]]))) ∧
    (∀ (pd : String → AltFetcher.GDoc2) (net : String → AltFetcher.NetRes) (url : String)
       (rt : RType) (r : HttpResponse),
       net url = .resp r → r.isOk = true →
       (jsStartsWith url GOOGLE_SEARCH_URL = true →
         (AltFetcher.fetchUrl pd net url rt).1 =
           .ok (AltFetcher.extractGoogleResults2 pd r.body rt)) ∧
       (jsStartsWith url GOOGLE_SEARCH_URL = false →
         (AltFetcher.fetchUrl pd net url rt).1 = .ok (AltFetcher.passthrough rt r.body))) := by
  refine ⟨?_, ?_, ?_⟩
  · intro pd jp r rt u hsz
    constructor
    · intro hg
      simp only [UrlFetcher.processResponse, hsz, Bool.false_eq_true, if_false, if_pos hg]
    · intro hg
      simp only [UrlFetcher.processResponse, hsz, Bool.false_eq_true, if_false, if_neg hg]
  · intro pd net u rt r hnet hok
    constructor
    · intro hg
      unfold AltFetcher.fetchUrlWithParams
      rw [hnet]
      simp [hok, if_pos hg]
    · intro hg
      unfold AltFetcher.fetchUrlWithParams
      rw [hnet]
      simp only [hok, if_true, if_neg hg]
      cases rt <;> rfl
  · intro pd net url rt r hnet hok
    constructor
    · intro hsw
      unfold AltFetcher.fetchUrl
      rw [hnet]
      simp [hok, hsw]
    · intro hsw
      unfold AltFetcher.fetchUrl
      rw [hnet]
      simp [hok, hsw]

/-- C7 witness: equality-based routing of processResponse and
fetchUrlWithParams on the canonical endpoint URL object, the raw-body
route of fetchUrlWithParams on a non-matching URL, and prefix-based
passthrough of the internal fetchUrl on a non-Google URL. -/
theorem spec_c7_routing_witness :
    UrlFetcher.processResponse pdT jpN resp5c .text gurlC =
      (.ok (UrlFetcher.extractGoogleResults pdT "x" .text), true) ∧
    AltFetcher.fetchUrlWithParams pd1c netSMc gurlC .json =
      .ok (AltFetcher.extractGoogleResults2 pd1c "B" .json) ∧
    AltFetcher.fetchUrlWithParams pd1c netSMc urlPlain .json =
      .ok (.arr [Json.obj [("content", Json.str "B")]]) ∧
    (AltFetcher.fetchUrl pd1c netSMc "https://example.com/" .json).1 =
      .ok (AltFetcher.passthrough .json "B") :=
  ⟨(spec_c7_routing.1 pdT jpN resp5c .text gurlC rfl).1 rfl,
   (spec_c7_routing.2.1 pd1c netSMc gurlC .json _ rfl rfl).1 rfl,
   (spec_c7_routing.2.1 pd1c netSMc urlPlain .json _ rfl rfl).2 (by decide),
   (spec_c7_routing.2.2 pd1c netSMc "https://example.com/" .json _ rfl rfl).2 rfl⟩

/-- Helper: an error message produced by the internal fetchUrl wrapper
is never the empty string. -/
theorem fetch_err_ne (m : String) : ("Failed to fetch URL: " ++ m) ≠ "" := by
  intro h
  have hlen := congrArg String.length h
  rw [String.length_append] at hlen
  have h21 : ("Failed to fetch URL: " : String).length = 21 := rfl
  have h0 : ("" : String).length = 0 := rfl
  omega

/-- C8: in the deep google_search handler, each extracted URL is
fetched independently; when the second of three URLs fails at the
network layer while the others succeed, the aggregate carries two
successful entries and one entry with that URL's error message, and
the call returns a success envelope (not an error envelope) whose
metadata reports resultsCount 3 and successCount 2. -/
theorem spec_c8_deep :
    ∀ (pd : String → AltFetcher.GDoc2) (net : String → AltFetcher.NetRes)
      (q : String) (rt : RType) (mr : Nat) (tp : DeepSearch.Topic)
      (sr : AltFetcher.RetVal) (u1 u2 u3 : String) (c1v c3v : AltFetcher.RetVal) (m : String),
      (AltFetcher.fetchUrl pd net (DeepSearch.buildGoogleSearchUrl q mr tp) .json).1 = .ok sr →
      DeepSearch.extractSearchUrls sr = [some u1, some u2, some u3] →
      (AltFetcher.fetchUrl pd net u1 rt).1 = .ok c1v →
      net u2 = .thrown m →
      (AltFetcher.fetchUrl pd net u3 rt).1 = .ok c3v →
      DeepSearch.fullResultsOf pd net rt [some u1, some u2, some u3] =
        [{ url := some u1, content := some c1v, error := none },
         { url := some u2, content := none, error := some ("Failed to fetch URL: " ++ m) },
         { url := some u3, content := some c3v, error := none }] ∧
      DeepSearch.googleSearch pd net q rt mr tp =
        .success
          (DeepSearch.renderDeep rt (DeepSearch.fullResultsOf pd net rt [some u1, some u2, some u3]))
          (mimeFor rt)
          { query := q, topic := tp, maxResults := mr, responseType := rt,
            resultsCount := 3, successCount := 2 } := by
  intro pd net q rt mr tp sr u1 u2 u3 c1v c3v m hs hurls h1 h2 h3
  have hu2 : (AltFetcher.fetchUrl pd net u2 rt).1 = .error ("Failed to fetch URL: " ++ m) := by
    unfold AltFetcher.fetchUrl
    rw [h2]
  have hfr : DeepSearch.fullResultsOf pd net rt [some u1, some u2, some u3] =
      [{ url := some u1, content := some c1v, error := none },
       { url := some u2, content := none, error := some ("Failed to fetch URL: " ++ m) },
       { url := some u3, content := some c3v, error := none }] := by
    unfold DeepSearch.fullResultsOf
    simp [h1, hu2, h3]
  refine ⟨hfr, ?_⟩
  unfold DeepSearch.googleSearch
  simp only []
  rw [hs]
  simp only [hurls, hfr]
  simp [truthy, fetch_err_ne m]

/-- Concrete search URL of the witness scenario. -/
def searchUrlW : String := DeepSearch.buildGoogleSearchUrl "a" 10 .web

/-- DOM oracle parsing the search page body into three news results. -/
def pd8 : String → AltFetcher.GDoc2 := fun b =>
  if b = "S" then
    { news := [
        { heading := some (some "A"), linkHref := some (some "https://a.example/"), sibText := none },
        { heading := some (some "B"), linkHref := some (some "https://b.example/"), sibText := none },
        { heading := some (some "C"), linkHref := some (some "https://c.example/"), sibText := none }],
      gDivs := [], tF2Cxc := [] }
  else { news := [], gDivs := [], tF2Cxc := [] }

/-- Network oracle: the search page succeeds, the second result URL
throws, the others succeed. -/
def net8 : String → AltFetcher.NetRes := fun u =>
  if u = searchUrlW then
    .resp { status := 200, statusText := "OK",
            headers := { contentType := some "text/html", contentLength := none }, body := "S" }
  else if u = "https://b.example/" then .thrown "boom"
  else .resp { status := 200, statusText := "OK",
               headers := { contentType := some "text/html", contentLength := none }, body := "P" }

/-- Extraction result of the witness search page. -/
def srW : AltFetcher.RetVal :=
  .arr [Json.obj [("title", Json.str "A"), ("url", Json.str "https://a.example/")],
        Json.obj [("title", Json.str "B"), ("url", Json.str "https://b.example/")],
        Json.obj [("title", Json.str "C"), ("url", Json.str "https://c.example/")]]

/-- C8 witness: the deep-search aggregation theorem applied to the
concrete three-URL scenario with one failing URL. -/
theorem spec_c8_deep_witness :
    DeepSearch.googleSearch pd8 net8 "a" .text 10 .web =
      .success
        (DeepSearch.renderDeep .text (DeepSearch.fullResultsOf pd8 net8 .text
          [some "https://a.example/", some "https://b.example/", some "https://c.example/"]))
        (mimeFor .text)
        { query := "a", topic := .web, maxResults := 10, responseType := .text,
          resultsCount := 3, successCount := 2 } :=
  (spec_c8_deep pd8 net8 "a" .text 10 .web srW "https://a.example/" "https://b.example/"
     "https://c.example/" (.str "P") (.str "P") "boom" rfl rfl rfl rfl rfl).2

/-- C9 counterexample: the claim that no fetch path writes to the
filesystem is false — a successful internal fetchUrl call on a
concrete URL produces a filesystem-write effect storing the body in
fetchedPage.html. -/
theorem spec_c9_counterexample :
    (AltFetcher.fetchUrl pd1c netSMc "https://example.com/" .json).2 =
      [.request, .writeFile "fetchedPage.html"] ∧
    Effect.writeFile "fetchedPage.html" ∈
      (AltFetcher.fetchUrl pd1c netSMc "https://example.com/" .json).2 :=
  ⟨rfl, by decide⟩

/-- C9 (amended): the fetch_url handler's effect trace never contains
a filesystem write (only requests and backoff sleeps), while the
internal fetchUrl writes the response body to fetchedPage.html on
every successful fetch and performs no write when the fetch throws or
the status is not ok. -/
theorem spec_c9_effects :
    (∀ (pd : String → UrlFetcher.GDoc) (jp : String → Option Json)
       (orc : Nat → UrlFetcher.AttemptRes) (u : URLm) (rt : RType) (t fuel a : Nat)
       (e : Effect), e ∈ (UrlFetcher.loop pd jp orc u rt t fuel a).2 →
       ∀ name, e ≠ .writeFile name) ∧
    (∀ (pd : String → AltFetcher.GDoc2) (net : String → AltFetcher.NetRes)
       (url : String) (rt : RType) (r : HttpResponse),
       net url = .resp r → r.isOk = true →
       (AltFetcher.fetchUrl pd net url rt).2 = [.request, .writeFile "fetchedPage.html"]) ∧
    (∀ (pd : String → AltFetcher.GDoc2) (net : String → AltFetcher.NetRes)
       (url : String) (rt : RType) (r : HttpResponse),
       net url = .resp r → r.isOk = false →
       (AltFetcher.fetchUrl pd net url rt).2 = [.request]) ∧
    (∀ (pd : String → AltFetcher.GDoc2) (net : String → AltFetcher.NetRes)
       (url : String) (rt : RType) (m : String),
       net url = .thrown m →
       (AltFetcher.fetchUrl pd net url rt).2 = [.request]) := by
  refine ⟨?_, ?_, ?_, ?_⟩
  · intro pd jp orc u rt t fuel
    induction fuel with
    | zero =>
      intro a e he name
      simp [UrlFetcher.loop] at he
    | succ n ih =>
      intro a e he name
      rw [UrlFetcher.loop] at he
      cases horc : orc a with
      | aborted =>
        rw [horc] at he
        simp at he
        subst he
        simp
      | thrown msg =>
        rw [horc] at he
        simp only [] at he
        by_cases hlast : a = MAX_RETRIES - 1
        · rw [if_pos hlast] at he
          simp at he
          subst he
          simp
        · rw [if_neg hlast] at he
          simp at he
          rcases he with rfl | rfl | he
          · simp
          · simp
          · exact ih (a + 1) e he name
      | resp r =>
        rw [horc] at he
        simp only [] at he
        by_cases hok : r.isOk = true
        · rw [if_pos hok] at he
          cases hp : UrlFetcher.processResponse pd jp r rt u with
          | mk res flag =>
            rw [hp] at he
            cases res with
            | ok text =>
              simp at he
              subst he
              simp
            | error msg =>
              simp only [] at he
              by_cases hlast : a = MAX_RETRIES - 1
              · rw [if_pos hlast] at he
                simp at he
                subst he
                simp
              · rw [if_neg hlast] at he
                simp at he
                rcases he with rfl | rfl | he
                · simp
                · simp
                · exact ih (a + 1) e he name
        · rw [if_neg hok] at he
          by_cases h429 : r.status = 429
          · rw [if_pos h429] at he
            by_cases hlast : a = MAX_RETRIES - 1
            · rw [if_pos hlast] at he
              simp at he
              subst he
              simp
            · rw [if_neg hlast] at he
              simp at he
              rcases he with rfl | rfl | he
              · simp
              · simp
              · exact ih (a + 1) e he name
          · rw [if_neg h429] at he
            simp at he
            subst he
            simp
  · intro pd net url rt r hnet hok
    unfold AltFetcher.fetchUrl
    rw [hnet]
    simp only [hok, if_true]
    split <;> rfl
  · intro pd net url rt r hnet hok
    unfold AltFetcher.fetchUrl
    rw [hnet]
    simp [hok]
  · intro pd net url rt m hnet
    unfold AltFetcher.fetchUrl
    rw [hnet]

/-- C9 witness: the no-write invariant applied to a concrete handler
trace element, and the write effect of a concrete successful internal
fetch. -/
theorem spec_c9_effects_witness :
    (Effect.request ≠ Effect.writeFile "fetchedPage.html") ∧
    (AltFetcher.fetchUrl pd1c netSMc "https://example.com/" .json).2 =
      [.request, .writeFile "fetchedPage.html"] :=
  ⟨spec_c9_effects.1 pdT jpN orc404 urlPlain .text 30000 3 0 Effect.request (by decide)
      "fetchedPage.html",
   spec_c9_effects.2.1 pd1c netSMc "https://example.com/" .json _ rfl rfl⟩

/-- C10: the internal fetchUrl performs no content-type validation and
no size-limit check — for any response (whatever its declared
content-type or content-length) on a URL that does not carry the
Google-search prefix, requesting json returns the one-element array
wrapping the raw body, and requesting html or text returns the raw
body unconditionally. -/
theorem spec_c10_fetchUrl_passthrough :
    ∀ (pd : String → AltFetcher.GDoc2) (net : String → AltFetcher.NetRes)
      (url : String) (r : HttpResponse),
      net url = .resp r → r.isOk = true → jsStartsWith url GOOGLE_SEARCH_URL = false →
      (AltFetcher.fetchUrl pd net url .json).1 =
        .ok (.arr [Json.obj [("content", Json.str r.body)]]) ∧
      (AltFetcher.fetchUrl pd net url .html).1 = .ok (.str r.body) ∧
      (AltFetcher.fetchUrl pd net url .text).1 = .ok (.str r.body) := by
  intro pd net url r hnet hok hsw
  refine ⟨?_, ?_, ?_⟩ <;>
    · unfold AltFetcher.fetchUrl
      rw [hnet]
      simp [hok, hsw, AltFetcher.passthrough]

/-- Network oracle answering with a non-JSON content-type and an
over-limit content-length, to exercise the absence of both checks. -/
def netBigJson : String → AltFetcher.NetRes := fun _ =>
  .resp { status := 200, statusText := "OK",
          headers := { contentType := some "text/plain", contentLength := some "99999999999" },
          body := "not json" }

/-- C10 witness: the passthrough behavior on a concrete response whose
content-type is not JSON and whose declared length exceeds the
limit. -/
theorem spec_c10_fetchUrl_passthrough_witness :
    (AltFetcher.fetchUrl pd1c netBigJson "https://example.com/" .json).1 =
      .ok (.arr [Json.obj [("content", Json.str "not json")]]) ∧
    (AltFetcher.fetchUrl pd1c netBigJson "https://example.com/" .html).1 =
      .ok (.str "not json") ∧
    (AltFetcher.fetchUrl pd1c netBigJson "https://example.com/" .text).1 =
      .ok (.str "not json") :=
  spec_c10_fetchUrl_passthrough pd1c netBigJson "https://example.com/" _ rfl rfl rfl
